import Mathlib

/-!
Verification of the Pending Transaction Tracker.

This file embeds, as executable Lean definitions, the `PendingTransactionTracker`
class of the repository: its constructor, `updatePendingTxs` (the reconcile-pending
tick), `resubmitPendingTxs` / `_resubmitTx` (the new-block tick), and the helpers
`_checkPendingTx`, `_checkIfTxWasDropped`, `_checkIfNonceIsTaken`.

Modelling conventions:
* Hex-string quantities that the source always compares numerically
  (nonces via `Number.parseInt(nonce, 16)`, block numbers) are abstracted to
  their numeric value (`Nat`).
* The instance state of the tracker (`this.query`, `this.droppedBlocksBufferByHash`,
  the collaborator functions) is passed explicitly; the `Map` used for the dropped
  buffer becomes an association list keyed by `Option String` (a JavaScript `Map`
  accepts `undefined` as a key, so the key type is the full type of `txMeta.hash`).
* `this.emit(...)` calls become elements of a returned `List Event`.
* Asynchronous calls that may reject become `Except Err` results; a JavaScript
  `try`/`catch` becomes a `match` on such a result.
-/

deriving instance DecidableEq for Except

namespace PendingTx

/-- A JavaScript `Error` as observed by the tracker: its `message`, its optional
`name` (set to `"NoTxHashError"` by `_checkPendingTx`), and the optional
`error.value.message` consulted first by `resubmitPendingTxs`. -/
structure Err where
  message : String
  name : Option String
  valueMessage : Option String
deriving DecidableEq, Repr

/-- A transaction receipt as consumed by `_checkPendingTx`: `blockNumber` is
`some` exactly when the receipt carries a (truthy) block number, and `blockHash`
is the hash of the containing block passed to `getBlockByHash`. -/
structure Receipt where
  blockNumber : Option Nat
  blockHash : String
deriving DecidableEq, Repr

/-- The block object returned by `getBlockByHash`; only `baseFeePerGas` is read
(it may be absent on pre-London blocks). -/
structure Block where
  baseFeePerGas : Option Nat
deriving DecidableEq, Repr

/-- The warning record written into `txMeta.warning`. -/
structure Warning where
  error : String
  message : String
deriving DecidableEq, Repr

/-- A tracked item (`txMeta`). `nonce` and `sender` embed `txParams.nonce` and
`txParams.from`; `retryCount` and `firstRetryBlockNumber` are `none` when the
corresponding field is absent on the JavaScript object, and `rawTx` is `none`
when `'rawTx' in txMeta` is false. -/
structure TxMeta where
  id : Nat
  status : String
  hash : Option String
  nonce : Nat
  sender : String
  rawTx : Option String
  retryCount : Option Nat
  firstRetryBlockNumber : Option Nat
  warning : Option Warning
deriving DecidableEq, Repr

/-- The notifications the tracker emits (`this.emit('tx:...', ...)`). -/
inductive Event where
  | txFailed (id : Nat) (error : Err)
  | txDropped (id : Nat)
  | txConfirmed (id : Nat) (receipt : Receipt) (baseFeePerGas : Option Nat)
  | txWarning (id : Nat) (error : Err)
  | txRetry (id : Nat)
  | txBlockUpdate (id : Nat) (latestBlockNumber : Nat)
deriving DecidableEq, Repr

/-- The ledger query interface (`this.query`, an EthQuery). Each method may
reject, hence the `Except Err` results. -/
structure QueryOracle where
  getTransactionReceipt : String → Except Err (Option Receipt)
  getBlockByHash : String → Except Err Block
  getTransactionCount : String → Except Err Nat

/-- `this.droppedBlocksBufferByHash`, a `Map` from observed hash to counter,
embedded as an association list (first matching key wins, `set` updates in
place or appends, as a JavaScript `Map` does). -/
abbrev Buffer := List (Option String × Nat)

/-- `Map.has`. -/
def Buffer.hasKey (b : Buffer) (k : Option String) : Bool :=
  b.any fun p => p.1 == k

/-- `Map.get` (`none` when the key is absent). -/
def Buffer.get (b : Buffer) (k : Option String) : Option Nat :=
  (b.find? fun p => p.1 == k).map Prod.snd

/-- `Map.set`: update the existing entry, else append. -/
def Buffer.set : Buffer → Option String → Nat → Buffer
  | [], k, v => [(k, v)]
  | p :: rest, k, v => if p.1 == k then (k, v) :: rest else p :: Buffer.set rest k v

/-- `Map.delete`. -/
def Buffer.delete (b : Buffer) (k : Option String) : Buffer :=
  b.filter fun p => !(p.1 == k)

/-- `DROPPED_BUFFER_COUNT = 3`. -/
def DROPPED_BUFFER_COUNT : Nat := 3

/-- Embeds `_checkIfNonceIsTaken`: some completed transaction of the same sender
has the same nonce and a different identity. `getCompletedTransactions` is the
collaborator supplied at construction. -/
def checkIfNonceIsTaken (getCompletedTransactions : String → List TxMeta)
    (txMeta : TxMeta) : Bool :=
  let address := txMeta.sender
  let completed := getCompletedTransactions address
  completed.any fun otherMeta =>
    if otherMeta.id == txMeta.id then false
    else otherMeta.nonce == txMeta.nonce

/-- Embeds `_checkIfTxWasDropped`: query the sender's network next-nonce; if the
item's nonce is still at least the next-nonce, report not dropped; otherwise
drive the per-hash debounce counter, declaring the item dropped (and deleting
its entry) only once the counter has reached `DROPPED_BUFFER_COUNT`. A rejection
of `getTransactionCount` propagates (the call site does not catch it). -/
def checkIfTxWasDropped (query : QueryOracle) (droppedBlocksBufferByHash : Buffer)
    (txMeta : TxMeta) : Except Err (Bool × Buffer) :=
  match query.getTransactionCount txMeta.sender with
  | .error e => .error e
  | .ok networkNextNonce =>
    if txMeta.nonce ≥ networkNextNonce then
      .ok (false, droppedBlocksBufferByHash)
    else
      let buf :=
        if droppedBlocksBufferByHash.hasKey txMeta.hash then droppedBlocksBufferByHash
        else droppedBlocksBufferByHash.set txMeta.hash 0
      let currentBlockBuffer := (buf.get txMeta.hash).getD 0
      if currentBlockBuffer < DROPPED_BUFFER_COUNT then
        .ok (false, buf.set txMeta.hash (currentBlockBuffer + 1))
      else
        .ok (true, buf.delete txMeta.hash)

/-- The error constructed by `_checkPendingTx` when a submitted item has no hash. -/
def noTxHashError : Err :=
  { message := "We had an error while submitting this transaction, please try again."
    name := some "NoTxHashError"
    valueMessage := none }

/-- The warning recorded when the receipt lookup (or the block fetch) rejects. -/
def loadingWarning (e : Err) : Warning :=
  { error := e.message, message := "There was a problem loading this transaction." }

/-- Embeds `_checkPendingTx`. Returns the emitted events, the updated dropped
buffer, and the (possibly warning-annotated) item; a rejection escaping the
method (only possible from `_checkIfTxWasDropped`) is an `Except.error`. -/
def checkPendingTx (query : QueryOracle) (getCompletedTransactions : String → List TxMeta)
    (droppedBlocksBufferByHash : Buffer) (txMeta : TxMeta) :
    Except Err (List Event × Buffer × TxMeta) :=
  let txId := txMeta.id
  if txMeta.status ≠ "submitted" then
    .ok ([], droppedBlocksBufferByHash, txMeta)
  else
    match txMeta.hash with
    | none =>
      .ok ([Event.txFailed txId noTxHashError], droppedBlocksBufferByHash, txMeta)
    | some txHash =>
      if checkIfNonceIsTaken getCompletedTransactions txMeta then
        .ok ([Event.txDropped txId], droppedBlocksBufferByHash, txMeta)
      else
        let dropCheck : Except Err (List Event × Buffer × TxMeta) :=
          match checkIfTxWasDropped query droppedBlocksBufferByHash txMeta with
          | .error e => .error e
          | .ok (true, buf) => .ok ([Event.txDropped txId], buf, txMeta)
          | .ok (false, buf) => .ok ([], buf, txMeta)
        match query.getTransactionReceipt txHash with
        | .error e =>
          let txMeta := { txMeta with warning := some (loadingWarning e) }
          .ok ([Event.txWarning txMeta.id e], droppedBlocksBufferByHash, txMeta)
        | .ok transactionReceipt =>
          match transactionReceipt with
          | some receipt =>
            match receipt.blockNumber with
            | some _ =>
              match query.getBlockByHash receipt.blockHash with
              | .error e =>
                let txMeta := { txMeta with warning := some (loadingWarning e) }
                .ok ([Event.txWarning txMeta.id e], droppedBlocksBufferByHash, txMeta)
              | .ok blk =>
                .ok ([Event.txConfirmed txId receipt blk.baseFeePerGas],
                     droppedBlocksBufferByHash, txMeta)
            | none => dropCheck
          | none => dropCheck

/-- The per-item step of `updatePendingTxs`: thread the dropped buffer through
`_checkPendingTx`, collecting the emitted events and, per item, the rejection
(if any) that `Promise.all` would observe. An item that rejects contributes no
events and leaves the buffer untouched (the only uncaught rejection site,
`getTransactionCount`, precedes every buffer mutation and emission). -/
def updateStep (query : QueryOracle) (getCompletedTransactions : String → List TxMeta)
    (acc : List Event × Buffer × List (Option Err)) (txMeta : TxMeta) :
    List Event × Buffer × List (Option Err) :=
  match checkPendingTx query getCompletedTransactions acc.2.1 txMeta with
  | .ok (events, buf, _) => (acc.1 ++ events, buf, acc.2.2 ++ [none])
  | .error e => (acc.1, acc.2.1, acc.2.2 ++ [some e])

/-- The observable outcome of one `updatePendingTxs` tick. `itemResults` records,
for each pending item in order, whether its evaluation rejected; `lockReleased`
and `errorPropagated` record the lock/exception behavior of the method toward
its caller. -/
structure UpdateResult where
  events : List Event
  buffer : Buffer
  itemResults : List (Option Err)
  lockReleased : Bool
  errorPropagated : Bool
deriving Repr

/-- Embeds `updatePendingTxs`: acquire the nonce global lock, evaluate every
pending item (each item's `_checkPendingTx` is started by `map` before
`Promise.all` is awaited, so every item is evaluated even when a sibling
rejects), catch and log any rejection instead of rethrowing, and release the
lock on every path. -/
def updatePendingTxs (query : QueryOracle) (getPendingTransactions : List TxMeta)
    (getCompletedTransactions : String → List TxMeta)
    (droppedBlocksBufferByHash : Buffer) : UpdateResult :=
  let pendingTxs := getPendingTransactions
  let folded := pendingTxs.foldl (updateStep query getCompletedTransactions)
    ([], droppedBlocksBufferByHash, [])
  { events := folded.1
    buffer := folded.2.1
    itemResults := folded.2.2
    lockReleased := true
    errorPropagated := false }

/-- The observable outcome of one `_resubmitTx` call: the events emitted before
returning or rejecting, the rejection (if any) handed to the caller's `catch`,
the returned hash, and — recording which collaborator call the method reached —
whether `approveTransaction` / `publishTransaction` was invoked. -/
structure ResubmitResult where
  events : List Event
  error : Option Err
  txHash : Option String
  attemptedApprove : Bool
  attemptedPublish : Bool
deriving Repr

/-- Embeds `_resubmitTx`: emit a block-update when no first-retry block is
recorded yet, compute the block distance against the recorded (or current)
first-retry block, return early under the exponential backoff
`txBlockDistance ≤ 2 ^ retryCount − 1`, otherwise approve unsigned items or
publish the raw payload, emitting a retry on successful publication. The block
distance is an integer difference, as in the source. -/
def resubmitTx (publishTransaction : String → Except Err String)
    (approveTransaction : Nat → Except Err Unit)
    (txMeta : TxMeta) (latestBlockNumber : Nat) : ResubmitResult :=
  let events :=
    if txMeta.firstRetryBlockNumber.isNone then
      [Event.txBlockUpdate txMeta.id latestBlockNumber]
    else []
  let firstRetryBlockNumber := txMeta.firstRetryBlockNumber.getD latestBlockNumber
  let txBlockDistance : Int := (latestBlockNumber : Int) - (firstRetryBlockNumber : Int)
  let retryCount := txMeta.retryCount.getD 0
  if txBlockDistance ≤ 2 ^ retryCount - 1 then
    { events := events, error := none, txHash := none
      attemptedApprove := false, attemptedPublish := false }
  else
    match txMeta.rawTx with
    | none =>
      match approveTransaction txMeta.id with
      | .ok _ =>
        { events := events, error := none, txHash := none
          attemptedApprove := true, attemptedPublish := false }
      | .error e =>
        { events := events, error := some e, txHash := none
          attemptedApprove := true, attemptedPublish := false }
    | some rawTx =>
      match publishTransaction rawTx with
      | .ok txHash =>
        { events := events ++ [Event.txRetry txMeta.id], error := none, txHash := some txHash
          attemptedApprove := false, attemptedPublish := true }
      | .error e =>
        { events := events, error := some e, txHash := none
          attemptedApprove := false, attemptedPublish := true }

/-- Does `s` contain `pat` as a substring? (JavaScript `String.prototype.includes`.) -/
def containsSub (s pat : String) : Bool :=
  (List.range (s.data.length + 1)).any fun i => List.isPrefixOf pat.data (s.data.drop i)

/-- `String.prototype.toLowerCase`, character by character (the classified
messages are ASCII). -/
def lowerStr (s : String) : String :=
  ⟨s.data.map Char.toLower⟩

/-- The lowercased message `resubmitPendingTxs` classifies:
`error.value?.message?.toLowerCase() || error.message.toLowerCase()` (an empty
lowercased `value.message` is falsy and falls back to `message`). -/
def errorMessageOf (e : Err) : String :=
  match e.valueMessage with
  | some m => if lowerStr m = "" then lowerStr e.message else lowerStr m
  | none => lowerStr e.message

/-- The known-benign resubmission error messages recognized by
`resubmitPendingTxs` (geth, parity, other). -/
def KNOWN_BENIGN_SUBSTRINGS : List String :=
  ["replacement transaction underpriced",
   "known transaction",
   "gas price too low to replace",
   "transaction with the same hash was already imported",
   "gateway timeout",
   "nonce too low"]

/-- The `isKnownTx` test of `resubmitPendingTxs` on the lowercased message. -/
def isKnownTxError (errorMessage : String) : Bool :=
  KNOWN_BENIGN_SUBSTRINGS.any fun s => containsSub errorMessage s

/-- The warning recorded by `resubmitPendingTxs` for a non-benign failure. -/
def resubmitWarning (errorMessage : String) : Warning :=
  { error := errorMessage
    message := "There was an error when resubmitting this transaction." }

/-- Embeds the `catch` handler of `resubmitPendingTxs`: a known-benign message
is silently ignored; any other error is recorded as the item's warning and a
warning notification is emitted. -/
def handleResubmitError (txMeta : TxMeta) (e : Err) : List Event × TxMeta :=
  let errorMessage := errorMessageOf e
  let isKnownTx := isKnownTxError errorMessage
  if isKnownTx then ([], txMeta)
  else
    let txMeta := { txMeta with warning := some (resubmitWarning errorMessage) }
    ([Event.txWarning txMeta.id e], txMeta)

/-- One iteration of the `forEach` in `resubmitPendingTxs`: run `_resubmitTx`
and hand any rejection to the `catch` handler. -/
def resubmitOne (publishTransaction : String → Except Err String)
    (approveTransaction : Nat → Except Err Unit)
    (blockNumber : Nat) (txMeta : TxMeta) : List Event × TxMeta :=
  let r := resubmitTx publishTransaction approveTransaction txMeta blockNumber
  match r.error with
  | none => (r.events, txMeta)
  | some e =>
    let handled := handleResubmitError txMeta e
    (r.events ++ handled.1, handled.2)

/-- Embeds `resubmitPendingTxs`: no-op on an empty pending set; otherwise each
item is resubmitted independently, its rejection (if any) classified by
`handleResubmitError`. Returns all emitted events and the per-item results. -/
def resubmitPendingTxs (publishTransaction : String → Except Err String)
    (approveTransaction : Nat → Except Err Unit)
    (getPendingTransactions : List TxMeta) (blockNumber : Nat) :
    List Event × List TxMeta :=
  let pending := getPendingTransactions
  if pending.length = 0 then ([], [])
  else
    let perItem := pending.map (resubmitOne publishTransaction approveTransaction blockNumber)
    ((perItem.map Prod.fst).flatten, perItem.map Prod.snd)

/-- An opaque network provider value (only its presence matters here). -/
structure Provider where
  unit : Unit
deriving Repr

/-- An opaque nonce tracker collaborator (only its presence matters here). -/
structure NonceTracker where
  unit : Unit

/-- Embeds `new EthQuery(config.provider)`: the ethjs-query constructor
validates its provider argument and throws when it is not an object (an
absent provider is `undefined`, so it throws); given an object provider it
merely stores it. The behavior of the resulting query object is irrelevant to
construction-time claims, so its methods are left as always-rejecting
placeholders. -/
def EthQuery.new (provider : Option Provider) : Except Err QueryOracle :=
  match provider with
  | none =>
    .error
      { message := "the Eth object requires that the first input 'provider' must be an object"
        name := none, valueMessage := none }
  | some _ =>
    .ok
      { getTransactionReceipt := fun _ =>
          .error { message := "query not connected", name := none, valueMessage := none }
        getBlockByHash := fun _ =>
          .error { message := "query not connected", name := none, valueMessage := none }
        getTransactionCount := fun _ =>
          .error { message := "query not connected", name := none, valueMessage := none } }

/-- The constructor's `config` argument: every collaborator field may be absent. -/
structure Config where
  provider : Option Provider
  query : Option QueryOracle
  nonceTracker : Option NonceTracker
  getPendingTransactions : Option (Unit → List TxMeta)
  getCompletedTransactions : Option (String → List TxMeta)
  publishTransaction : Option (String → Except Err String)
  approveTransaction : Option (Nat → Except Err Unit)
  confirmTransaction : Option (Nat → Unit)

/-- The constructed tracker state: the constructor stores each collaborator
exactly as supplied (possibly absent), with `query` falling back to a fresh
EthQuery over the provider. -/
structure PendingTransactionTracker where
  droppedBuffer : Buffer
  query : QueryOracle
  nonceTracker : Option NonceTracker
  getPendingTransactions : Option (Unit → List TxMeta)
  getCompletedTransactions : Option (String → List TxMeta)
  publishTransaction : Option (String → Except Err String)
  approveTransaction : Option (Nat → Except Err Unit)
  confirmTransaction : Option (Nat → Unit)

/-- Embeds the `PendingTransactionTracker` constructor: it assigns
`config.query || new EthQuery(config.provider)` — evaluating the EthQuery
fallback, whose provider validation can throw, only when `config.query` is
absent — and copies the remaining collaborators without any presence check.
A thrown provider-validation error is the only way construction can fail. -/
def PendingTransactionTracker.construct (config : Config) :
    Except Err PendingTransactionTracker :=
  let mkTracker : QueryOracle → PendingTransactionTracker := fun query =>
    { droppedBuffer := []
      query := query
      nonceTracker := config.nonceTracker
      getPendingTransactions := config.getPendingTransactions
      getCompletedTransactions := config.getCompletedTransactions
      publishTransaction := config.publishTransaction
      approveTransaction := config.approveTransaction
      confirmTransaction := config.confirmTransaction }
  match config.query with
  | some query => .ok (mkTracker query)
  | none =>
    match EthQuery.new config.provider with
    | .error e => .error e
    | .ok query => .ok (mkTracker query)

/-- Did construction succeed? -/
def constructionSucceeds (config : Config) : Bool :=
  match PendingTransactionTracker.construct config with
  | .ok _ => true
  | .error _ => false

/-- Modelled from the spec: the collaborator that receives the block-update
notification (the transaction controller, outside this source file) records
the notified block number as the item's first retry block when none is
recorded yet. -/
def handleBlockUpdate (txMeta : TxMeta) (latestBlockNumber : Nat) : TxMeta :=
  if txMeta.firstRetryBlockNumber.isNone then
    { txMeta with firstRetryBlockNumber := some latestBlockNumber }
  else txMeta

/-- Is this event a terminal dropped/failed determination? -/
def Event.isDroppedOrFailed : Event → Bool
  | .txDropped _ => true
  | .txFailed _ _ => true
  | _ => false

/-- Is this event a block-update notification? -/
def Event.isBlockUpdate : Event → Bool
  | .txBlockUpdate _ _ => true
  | _ => false

/-! ### Basic lemmas about the dropped-buffer map -/

theorem Buffer.hasKey_set (b : Buffer) (k : Option String) (v : Nat) :
    (b.set k v).hasKey k = true := by
  induction b with
  | nil => simp [Buffer.set, Buffer.hasKey]
  | cons p rest ih =>
    simp only [Buffer.set]
    split
    · simp [Buffer.hasKey]
    · simpa [Buffer.hasKey] using Or.inr (by simpa [Buffer.hasKey] using ih)

theorem Buffer.get_set (b : Buffer) (k : Option String) (v : Nat) :
    (b.set k v).get k = some v := by
  induction b with
  | nil => simp [Buffer.set, Buffer.get]
  | cons p rest ih =>
    simp only [Buffer.set]
    split
    · simp [Buffer.get, List.find?]
    · rename_i h
      simpa [Buffer.get, List.find?_cons, h] using ih

theorem Buffer.hasKey_delete (b : Buffer) (k : Option String) :
    (b.delete k).hasKey k = false := by
  induction b with
  | nil => simp [Buffer.delete, Buffer.hasKey]
  | cons p rest ih =>
    simp only [Buffer.delete, List.filter_cons]
    split
    · rename_i h
      simp only [Bool.not_eq_true'] at h
      simp only [Buffer.hasKey, List.any_cons, h, Bool.false_or] at ih ⊢
      exact ih
    · exact ih

/-! ### Helper lemmas about the embedded operations -/

theorem length_updateStep_snd (query : QueryOracle) (gc : String → List TxMeta)
    (acc : List Event × Buffer × List (Option Err)) (t : TxMeta) :
    ((updateStep query gc acc t).2.2).length = acc.2.2.length + 1 := by
  unfold updateStep
  cases checkPendingTx query gc acc.2.1 t with
  | ok r => simp
  | error e => simp

theorem length_foldl_updateStep (query : QueryOracle) (gc : String → List TxMeta)
    (txs : List TxMeta) (acc : List Event × Buffer × List (Option Err)) :
    ((txs.foldl (updateStep query gc) acc).2.2).length = acc.2.2.length + txs.length := by
  induction txs generalizing acc with
  | nil => simp
  | cons t ts ih =>
    rw [List.foldl_cons, ih, length_updateStep_snd]
    simp only [List.length_cons]
    omega

/-! ### Claim theorems -/

/-- Claim C3: for every pending set and every possible per-item evaluation
failure (the query oracle, and hence each item's rejection behavior, is
universally quantified), reconcile-pending releases the nonce global lock after
processing, propagates no error to its caller, and every item of the batch is
evaluated (one result per pending item), so one item's failure does not prevent
the evaluation of the others. -/
theorem updatePendingTxs_releases_lock_and_isolates
    (query : QueryOracle) (getPendingTransactions : List TxMeta)
    (getCompletedTransactions : String → List TxMeta) (buf : Buffer) :
    (updatePendingTxs query getPendingTransactions getCompletedTransactions buf).lockReleased
        = true ∧
    (updatePendingTxs query getPendingTransactions getCompletedTransactions buf).errorPropagated
        = false ∧
    (updatePendingTxs query getPendingTransactions getCompletedTransactions buf).itemResults.length
        = getPendingTransactions.length := by
  refine ⟨rfl, rfl, ?_⟩
  unfold updatePendingTxs
  simpa using length_foldl_updateStep query getCompletedTransactions getPendingTransactions
    ([], buf, [])

/-- Claim C2: with retry count `r = retryCount.getD 0` and block distance
`d = latest − firstRetryBlock` (the recorded first-retry block, or the current
block when none is recorded), `_resubmitTx` neither broadcasts nor approves
exactly when `d ≤ 2^r − 1`, and attempts resubmission (approve or publish)
when `d > 2^r − 1`. -/
theorem resubmitTx_backoff (publishTransaction : String → Except Err String)
    (approveTransaction : Nat → Except Err Unit) (txMeta : TxMeta) (latestBlockNumber : Nat) :
    ((latestBlockNumber : Int) - (txMeta.firstRetryBlockNumber.getD latestBlockNumber : Nat)
        ≤ 2 ^ txMeta.retryCount.getD 0 - 1 →
      (resubmitTx publishTransaction approveTransaction txMeta latestBlockNumber).attemptedApprove
          = false ∧
      (resubmitTx publishTransaction approveTransaction txMeta latestBlockNumber).attemptedPublish
          = false) ∧
    ((latestBlockNumber : Int) - (txMeta.firstRetryBlockNumber.getD latestBlockNumber : Nat)
        > 2 ^ txMeta.retryCount.getD 0 - 1 →
      (resubmitTx publishTransaction approveTransaction txMeta latestBlockNumber).attemptedApprove
          = true ∨
      (resubmitTx publishTransaction approveTransaction txMeta latestBlockNumber).attemptedPublish
          = true) := by
  constructor
  · intro h
    unfold resubmitTx
    simp only []
    rw [if_pos h]
    exact ⟨rfl, rfl⟩
  · intro h
    unfold resubmitTx
    simp only []
    rw [if_neg (not_le.mpr h)]
    split
    · split
      · exact Or.inl rfl
      · exact Or.inl rfl
    · split
      · exact Or.inr rfl
      · exact Or.inr rfl

/-- A configuration supplying only a provider object: every one of the six
required collaborators (ledger query interface, nonce arbiter, pending-set
provider, completed-set provider, approve/sign function, broadcast function)
is absent. -/
def providerOnlyConfig : Config :=
  { provider := some { unit := () }, query := none, nonceTracker := none,
    getPendingTransactions := none, getCompletedTransactions := none,
    publishTransaction := none, approveTransaction := none, confirmTransaction := none }

/-- Claim C9 (counterexample): constructing the tracker with all six required
collaborators absent (only a provider object supplied) succeeds — the
constructor performs no presence check on any collaborator, so their absence
is not a construction-time error. -/
theorem construct_with_provider_only_succeeds :
    constructionSucceeds providerOnlyConfig = true := rfl

/-- Claim C9 (amended): construction fails exactly when the ledger query
interface is absent and no provider object is supplied — the EthQuery
fallback's own provider validation throws. Absence of any other collaborator
(nonce arbiter, pending-set provider, completed-set provider, approve/sign
function, broadcast function), or of the query when a provider object is
present, is not detected at construction time: the constructor stores the
collaborators as given and succeeds. -/
theorem construct_fails_iff_query_and_provider_absent (config : Config) :
    constructionSucceeds config = (config.query.isSome || config.provider.isSome) := by
  unfold constructionSucceeds PendingTransactionTracker.construct EthQuery.new
  cases config.query <;> cases config.provider <;> rfl

/-- The events of one `_resubmitTx` call are the (conditional) block-update,
possibly followed by a retry. -/
theorem resubmitTx_events_eq (pub : String → Except Err String)
    (app : Nat → Except Err Unit) (tx : TxMeta) (bn : Nat) :
    (resubmitTx pub app tx bn).events
        = (if tx.firstRetryBlockNumber.isNone then [Event.txBlockUpdate tx.id bn] else []) ∨
    (resubmitTx pub app tx bn).events
        = (if tx.firstRetryBlockNumber.isNone then [Event.txBlockUpdate tx.id bn] else [])
            ++ [Event.txRetry tx.id] := by
  unfold resubmitTx
  simp only []
  split
  · exact Or.inl rfl
  · split
    · split
      · exact Or.inl rfl
      · exact Or.inl rfl
    · split
      · exact Or.inr rfl
      · exact Or.inl rfl

theorem resubmitTx_events_not_terminal (pub : String → Except Err String)
    (app : Nat → Except Err Unit) (tx : TxMeta) (bn : Nat) :
    ((resubmitTx pub app tx bn).events.all fun ev => !ev.isDroppedOrFailed) = true := by
  rcases resubmitTx_events_eq pub app tx bn with h | h <;> rw [h] <;>
    by_cases hf : tx.firstRetryBlockNumber.isNone <;>
      simp [hf, Event.isDroppedOrFailed]

theorem handleResubmitError_events_not_terminal (tx : TxMeta) (e : Err) :
    (((handleResubmitError tx e).1).all fun ev => !ev.isDroppedOrFailed) = true := by
  unfold handleResubmitError
  simp only []
  split
  · rfl
  · simp [Event.isDroppedOrFailed]

theorem resubmitOne_events_not_terminal (pub : String → Except Err String)
    (app : Nat → Except Err Unit) (bn : Nat) (tx : TxMeta) :
    ((resubmitOne pub app bn tx).1.all fun ev => !ev.isDroppedOrFailed) = true := by
  unfold resubmitOne
  simp only []
  split
  · exact resubmitTx_events_not_terminal pub app tx bn
  · rename_i e heq
    rw [List.all_append, resubmitTx_events_not_terminal,
      handleResubmitError_events_not_terminal]
    rfl

theorem resubmitPendingTxs_events_not_terminal (pub : String → Except Err String)
    (app : Nat → Except Err Unit) (pending : List TxMeta) (bn : Nat) :
    ((resubmitPendingTxs pub app pending bn).1.all fun ev => !ev.isDroppedOrFailed) = true := by
  unfold resubmitPendingTxs
  simp only []
  split
  · rfl
  · rw [List.all_eq_true]
    intro ev hev
    rw [List.mem_flatten] at hev
    obtain ⟨l, hl, hevl⟩ := hev
    rw [List.mem_map] at hl
    obtain ⟨pair, hpair, hfst⟩ := hl
    rw [List.mem_map] at hpair
    obtain ⟨tx, htx, rfl⟩ := hpair
    have hall := resubmitOne_events_not_terminal pub app bn tx
    rw [List.all_eq_true] at hall
    exact hall ev (hfst ▸ hevl)

/-- Claim C8: a resubmission failure whose (case-insensitively lowercased)
message contains one of the known-benign substrings is silently ignored — no
notification, item unchanged; any other failure is recorded as the item's
warning and emitted as exactly one warning notification; and the resubmit path
never emits a dropped or failed notification. -/
theorem resubmit_error_classification (txMeta : TxMeta) (e : Err) :
    (isKnownTxError (errorMessageOf e) = true →
      handleResubmitError txMeta e = ([], txMeta)) ∧
    (isKnownTxError (errorMessageOf e) = false →
      handleResubmitError txMeta e
        = ([Event.txWarning txMeta.id e],
           { txMeta with warning := some (resubmitWarning (errorMessageOf e)) })) ∧
    (∀ (publishTransaction : String → Except Err String)
        (approveTransaction : Nat → Except Err Unit)
        (pending : List TxMeta) (blockNumber : Nat),
      ((resubmitPendingTxs publishTransaction approveTransaction pending blockNumber).1.all
          fun ev => !ev.isDroppedOrFailed) = true) := by
  refine ⟨?_, ?_, ?_⟩
  · intro h
    unfold handleResubmitError
    simp [h]
  · intro h
    unfold handleResubmitError
    simp [h]
  · intro pub app pending bn
    exact resubmitPendingTxs_events_not_terminal pub app pending bn

/-- The block-update notifications of one `_resubmitTx` call: exactly one when
no first-retry block is recorded, none otherwise. -/
theorem filter_blockUpdate_resubmitTx (pub : String → Except Err String)
    (app : Nat → Except Err Unit) (tx : TxMeta) (bn : Nat) :
    ((resubmitTx pub app tx bn).events.filter Event.isBlockUpdate)
      = if tx.firstRetryBlockNumber.isNone then [Event.txBlockUpdate tx.id bn] else [] := by
  rcases resubmitTx_events_eq pub app tx bn with h | h <;> rw [h] <;>
    by_cases hf : tx.firstRetryBlockNumber.isNone <;>
      simp [hf, Event.isBlockUpdate]

/-- Claim C4: on the first resubmission attempt for an item with no recorded
first-retry block, `_resubmitTx` emits exactly one block-update notification
carrying the current block number; the collaborator handling the notification
(`handleBlockUpdate`, modelled from the spec) records that block number as the
item's first retry block; and once it is recorded, no later `_resubmitTx` call
for the item emits a block-update — the notification is emitted only that very
first time. -/
theorem blockUpdate_emitted_only_first_time
    (pub pub' : String → Except Err String) (app app' : Nat → Except Err Unit)
    (txMeta : TxMeta) (latest latest' : Nat)
    (hfirst : txMeta.firstRetryBlockNumber = none) :
    ((resubmitTx pub app txMeta latest).events.filter Event.isBlockUpdate)
        = [Event.txBlockUpdate txMeta.id latest] ∧
    handleBlockUpdate txMeta latest = { txMeta with firstRetryBlockNumber := some latest } ∧
    ((resubmitTx pub' app' (handleBlockUpdate txMeta latest) latest').events.filter
        Event.isBlockUpdate) = [] := by
  have hset : handleBlockUpdate txMeta latest
      = { txMeta with firstRetryBlockNumber := some latest } := by
    simp [handleBlockUpdate, hfirst]
  refine ⟨?_, hset, ?_⟩
  · have h1 := filter_blockUpdate_resubmitTx pub app txMeta latest
    rw [hfirst] at h1
    simpa using h1
  · rw [hset]
    have h2 := filter_blockUpdate_resubmitTx pub' app'
      { txMeta with firstRetryBlockNumber := some latest } latest'
    simpa using h2

/-- When a submitted, hashed item has no nonce collision and the ledger reports
no receipt, `_checkPendingTx` reduces to the drop-detection step. -/
theorem checkPendingTx_eq_dropCheck (query : QueryOracle) (gc : String → List TxMeta)
    (buf : Buffer) (txMeta : TxMeta) (txHash : String)
    (hstatus : txMeta.status = "submitted")
    (hhash : txMeta.hash = some txHash)
    (hnonce : checkIfNonceIsTaken gc txMeta = false)
    (hrcpt : query.getTransactionReceipt txHash = Except.ok none) :
    checkPendingTx query gc buf txMeta
      = match checkIfTxWasDropped query buf txMeta with
        | .error e => .error e
        | .ok (true, b) => .ok ([Event.txDropped txMeta.id], b, txMeta)
        | .ok (false, b) => .ok ([], b, txMeta) := by
  unfold checkPendingTx
  simp [hstatus, hhash, hnonce, hrcpt]

/-- First superseded observation of a hash: the counter entry is created at 0
and immediately incremented to 1; not yet dropped. -/
theorem checkIfTxWasDropped_first (query : QueryOracle) (buf : Buffer) (txMeta : TxMeta)
    (n : Nat)
    (hcount : query.getTransactionCount txMeta.sender = Except.ok n)
    (hlt : txMeta.nonce < n)
    (hbuf : buf.hasKey txMeta.hash = false) :
    checkIfTxWasDropped query buf txMeta
      = .ok (false, (buf.set txMeta.hash 0).set txMeta.hash 1) := by
  unfold checkIfTxWasDropped
  rw [hcount]
  simp only []
  rw [if_neg (by omega : ¬ txMeta.nonce ≥ n)]
  rw [hbuf]
  simp [Buffer.get_set, DROPPED_BUFFER_COUNT]

/-- Subsequent superseded observation below the threshold: increment. -/
theorem checkIfTxWasDropped_increment (query : QueryOracle) (buf : Buffer) (txMeta : TxMeta)
    (n c : Nat)
    (hcount : query.getTransactionCount txMeta.sender = Except.ok n)
    (hlt : txMeta.nonce < n)
    (hbuf : buf.hasKey txMeta.hash = true)
    (hget : buf.get txMeta.hash = some c)
    (hc : c < DROPPED_BUFFER_COUNT) :
    checkIfTxWasDropped query buf txMeta = .ok (false, buf.set txMeta.hash (c + 1)) := by
  unfold checkIfTxWasDropped
  rw [hcount]
  simp only []
  rw [if_neg (by omega : ¬ txMeta.nonce ≥ n)]
  rw [hbuf]
  simp [hget, hc]

/-- Superseded observation at the threshold: the entry is deleted and the item
is declared dropped. -/
theorem checkIfTxWasDropped_drop (query : QueryOracle) (buf : Buffer) (txMeta : TxMeta)
    (n c : Nat)
    (hcount : query.getTransactionCount txMeta.sender = Except.ok n)
    (hlt : txMeta.nonce < n)
    (hbuf : buf.hasKey txMeta.hash = true)
    (hget : buf.get txMeta.hash = some c)
    (hc : ¬ c < DROPPED_BUFFER_COUNT) :
    checkIfTxWasDropped query buf txMeta = .ok (true, buf.delete txMeta.hash) := by
  unfold checkIfTxWasDropped
  rw [hcount]
  simp only []
  rw [if_neg (by omega : ¬ txMeta.nonce ≥ n)]
  rw [hbuf]
  simp [hget, hc]

/-- Claim C1: for a tracked item with status `submitted`, an observed hash, no
receipt, no nonce collision, and a nonce strictly below the network's
next-nonce, reconcile-pending emits no dropped notification on the first,
second, or third consecutive such observation of the hash (starting from a
buffer without an entry for it), and emits dropped — deleting the hash's
buffer entry — on the fourth consecutive observation. -/
theorem drop_debounce (query : QueryOracle) (gc : String → List TxMeta)
    (buf : Buffer) (txMeta : TxMeta) (txHash : String) (n : Nat)
    (hstatus : txMeta.status = "submitted")
    (hhash : txMeta.hash = some txHash)
    (hnonce : checkIfNonceIsTaken gc txMeta = false)
    (hrcpt : query.getTransactionReceipt txHash = Except.ok none)
    (hcount : query.getTransactionCount txMeta.sender = Except.ok n)
    (hlt : txMeta.nonce < n)
    (hbuf : buf.hasKey txMeta.hash = false) :
    ∃ buf1 buf2 buf3 : Buffer,
      checkPendingTx query gc buf txMeta = .ok ([], buf1, txMeta) ∧
      checkPendingTx query gc buf1 txMeta = .ok ([], buf2, txMeta) ∧
      checkPendingTx query gc buf2 txMeta = .ok ([], buf3, txMeta) ∧
      checkPendingTx query gc buf3 txMeta
        = .ok ([Event.txDropped txMeta.id], buf3.delete txMeta.hash, txMeta) ∧
      (buf3.delete txMeta.hash).hasKey txMeta.hash = false := by
  refine ⟨(buf.set txMeta.hash 0).set txMeta.hash 1,
    ((buf.set txMeta.hash 0).set txMeta.hash 1).set txMeta.hash 2,
    (((buf.set txMeta.hash 0).set txMeta.hash 1).set txMeta.hash 2).set txMeta.hash 3,
    ?_, ?_, ?_, ?_, ?_⟩
  · rw [checkPendingTx_eq_dropCheck query gc buf txMeta txHash hstatus hhash hnonce hrcpt,
      checkIfTxWasDropped_first query buf txMeta n hcount hlt hbuf]
  · rw [checkPendingTx_eq_dropCheck query gc _ txMeta txHash hstatus hhash hnonce hrcpt,
      checkIfTxWasDropped_increment query _ txMeta n 1 hcount hlt
        (Buffer.hasKey_set _ _ _) (Buffer.get_set _ _ _) (by decide)]
  · rw [checkPendingTx_eq_dropCheck query gc _ txMeta txHash hstatus hhash hnonce hrcpt,
      checkIfTxWasDropped_increment query _ txMeta n 2 hcount hlt
        (Buffer.hasKey_set _ _ _) (Buffer.get_set _ _ _) (by decide)]
  · rw [checkPendingTx_eq_dropCheck query gc _ txMeta txHash hstatus hhash hnonce hrcpt,
      checkIfTxWasDropped_drop query _ txMeta n 3 hcount hlt
        (Buffer.hasKey_set _ _ _) (Buffer.get_set _ _ _) (by decide)]
  · exact Buffer.hasKey_delete _ _

/-- Claim C5: for a submitted, hashed item with no nonce collision, when the
ledger returns a receipt carrying a block number and the containing block is
fetched, reconcile-pending emits exactly one confirmed notification carrying
that receipt and the fetched block's base fee, and no other notification for
the item on that tick (and leaves the dropped buffer and the item unchanged). -/
theorem receipt_confirmed_exactly_once (query : QueryOracle) (gc : String → List TxMeta)
    (buf : Buffer) (txMeta : TxMeta) (txHash : String) (receipt : Receipt)
    (blockNum : Nat) (blk : Block)
    (hstatus : txMeta.status = "submitted")
    (hhash : txMeta.hash = some txHash)
    (hnonce : checkIfNonceIsTaken gc txMeta = false)
    (hrcpt : query.getTransactionReceipt txHash = Except.ok (some receipt))
    (hbn : receipt.blockNumber = some blockNum)
    (hblk : query.getBlockByHash receipt.blockHash = Except.ok blk) :
    checkPendingTx query gc buf txMeta
      = .ok ([Event.txConfirmed txMeta.id receipt blk.baseFeePerGas], buf, txMeta) := by
  unfold checkPendingTx
  simp [hstatus, hhash, hnonce, hrcpt, hbn, hblk]

/-- Claim C6: for a submitted, hashed item, when some completed item of the
same sender has the same nonce and a different identity, reconcile-pending
emits dropped for the item without performing any ledger query — the query
oracle is universally quantified and the outcome does not depend on it. -/
theorem nonce_collision_drops_without_query (query : QueryOracle) (gc : String → List TxMeta)
    (buf : Buffer) (txMeta other : TxMeta) (txHash : String)
    (hstatus : txMeta.status = "submitted")
    (hhash : txMeta.hash = some txHash)
    (hother : other ∈ gc txMeta.sender)
    (hid : other.id ≠ txMeta.id)
    (hsame : other.nonce = txMeta.nonce) :
    checkPendingTx query gc buf txMeta = .ok ([Event.txDropped txMeta.id], buf, txMeta) := by
  have htaken : checkIfNonceIsTaken gc txMeta = true := by
    unfold checkIfNonceIsTaken
    simp only [List.any_eq_true]
    refine ⟨other, hother, ?_⟩
    simp [hid, hsame]
  unfold checkPendingTx
  simp [hstatus, hhash, htaken]

/-- Claim C7: for a submitted, hashed item with no nonce collision, when the
receipt query rejects, reconcile-pending records the error as the item's
warning and emits exactly one warning notification — neither dropped nor
failed — for the item on that tick. -/
theorem query_failure_warns (query : QueryOracle) (gc : String → List TxMeta)
    (buf : Buffer) (txMeta : TxMeta) (txHash : String) (e : Err)
    (hstatus : txMeta.status = "submitted")
    (hhash : txMeta.hash = some txHash)
    (hnonce : checkIfNonceIsTaken gc txMeta = false)
    (hrcpt : query.getTransactionReceipt txHash = Except.error e) :
    checkPendingTx query gc buf txMeta
      = .ok ([Event.txWarning txMeta.id e], buf,
             { txMeta with warning := some (loadingWarning e) }) := by
  unfold checkPendingTx
  simp [hstatus, hhash, hnonce, hrcpt]

/-- No superseded nonce: the drop check reports not dropped, buffer untouched. -/
theorem checkIfTxWasDropped_not_superseded (query : QueryOracle) (buf : Buffer)
    (txMeta : TxMeta) (n : Nat)
    (hcount : query.getTransactionCount txMeta.sender = Except.ok n)
    (hge : txMeta.nonce ≥ n) :
    checkIfTxWasDropped query buf txMeta = .ok (false, buf) := by
  unfold checkIfTxWasDropped
  rw [hcount]
  simp only []
  rw [if_pos hge]

/-- A present key has a counter value. -/
theorem Buffer.exists_get_of_hasKey (b : Buffer) (k : Option String)
    (h : b.hasKey k = true) : ∃ c, b.get k = some c := by
  unfold Buffer.hasKey at h
  unfold Buffer.get
  rw [List.any_eq_true] at h
  obtain ⟨p, hp, hpk⟩ := h
  have hsome : (b.find? fun q => q.1 == k).isSome := List.find?_isSome.mpr ⟨p, hp, hpk⟩
  obtain ⟨q, hq⟩ := Option.isSome_iff_exists.mp hsome
  exact ⟨q.2, by rw [hq]; rfl⟩

/-- Concrete fixtures for the claim witnesses and counterexamples. -/
def sampleTx : TxMeta :=
  { id := 7, status := "submitted", hash := some "0xabc", nonce := 1, sender := "0xsender"
    rawTx := some "0xraw", retryCount := none, firstRetryBlockNumber := none, warning := none }

/-- An oracle reporting no receipt for any hash and next-nonce 5 for any sender. -/
def oracleNoReceipt : QueryOracle :=
  { getTransactionReceipt := fun _ => .ok none
    getBlockByHash := fun _ => .ok { baseFeePerGas := some 100 }
    getTransactionCount := fun _ => .ok 5 }

/-- The receipt returned by `oracleWithReceipt`. -/
def sampleReceipt : Receipt := { blockNumber := some 3, blockHash := "0xblk" }

/-- An oracle reporting a mined receipt for every hash and next-nonce 5. -/
def oracleWithReceipt : QueryOracle :=
  { getTransactionReceipt := fun _ => .ok (some sampleReceipt)
    getBlockByHash := fun _ => .ok { baseFeePerGas := some 100 }
    getTransactionCount := fun _ => .ok 5 }

/-- Claim C10 (counterexample): on one tick the item's nonce is observed
superseded with no receipt, creating the buffer entry for `"0xabc"` with
counter 1; on the next tick a receipt appears and the terminal confirmed
notification is emitted — yet the hash's buffer entry survives, so a buffer
entry does outlive its item's terminal outcome, contradicting the claimed
invariant. -/
theorem buffer_entry_survives_terminal_outcome :
    checkPendingTx oracleNoReceipt (fun _ => []) [] sampleTx
        = .ok ([], [(some "0xabc", 1)], sampleTx) ∧
    checkPendingTx oracleWithReceipt (fun _ => []) [(some "0xabc", 1)] sampleTx
        = .ok ([Event.txConfirmed 7 sampleReceipt (some 100)], [(some "0xabc", 1)], sampleTx) ∧
    Buffer.hasKey [(some "0xabc", 1)] (some "0xabc") = true :=
  ⟨rfl, rfl, rfl⟩

/-- Claim C10 (amended): a dropped-buffer entry for an item's hash is created
or incremented only by the drop-detection step while the item's nonce is
observed below the network next-nonce (when it is not superseded the buffer is
untouched), and the entry is removed exactly when the debounce threshold
declares the item dropped; no other path removes it, so an entry may survive
an item's terminal outcome reached through the receipt or nonce-collision
paths. -/
theorem dropped_buffer_lifecycle (query : QueryOracle) (buf : Buffer) (txMeta : TxMeta)
    (n : Nat)
    (hcount : query.getTransactionCount txMeta.sender = Except.ok n) :
    (txMeta.nonce ≥ n → checkIfTxWasDropped query buf txMeta = .ok (false, buf)) ∧
    (∀ buf' : Buffer, checkIfTxWasDropped query buf txMeta = .ok (true, buf') →
      buf'.hasKey txMeta.hash = false) ∧
    (∀ buf' : Buffer, checkIfTxWasDropped query buf txMeta = .ok (false, buf') →
      txMeta.nonce < n → buf'.hasKey txMeta.hash = true) := by
  refine ⟨fun hge => checkIfTxWasDropped_not_superseded query buf txMeta n hcount hge, ?_, ?_⟩
  · intro buf' h
    by_cases hge : txMeta.nonce ≥ n
    · rw [checkIfTxWasDropped_not_superseded query buf txMeta n hcount hge] at h
      simp at h
    · have hlt : txMeta.nonce < n := by omega
      by_cases hk : buf.hasKey txMeta.hash = true
      · obtain ⟨c, hget⟩ := Buffer.exists_get_of_hasKey buf txMeta.hash hk
        by_cases hc : c < DROPPED_BUFFER_COUNT
        · rw [checkIfTxWasDropped_increment query buf txMeta n c hcount hlt hk hget hc] at h
          simp at h
        · rw [checkIfTxWasDropped_drop query buf txMeta n c hcount hlt hk hget hc] at h
          simp only [Except.ok.injEq, Prod.mk.injEq, true_and] at h
          rw [← h]
          exact Buffer.hasKey_delete _ _
      · rw [checkIfTxWasDropped_first query buf txMeta n hcount hlt
            (by simpa using hk)] at h
        simp at h
  · intro buf' h hlt
    by_cases hk : buf.hasKey txMeta.hash = true
    · obtain ⟨c, hget⟩ := Buffer.exists_get_of_hasKey buf txMeta.hash hk
      by_cases hc : c < DROPPED_BUFFER_COUNT
      · rw [checkIfTxWasDropped_increment query buf txMeta n c hcount hlt hk hget hc] at h
        simp only [Except.ok.injEq, Prod.mk.injEq, true_and] at h
        rw [← h]
        exact Buffer.hasKey_set _ _ _
      · rw [checkIfTxWasDropped_drop query buf txMeta n c hcount hlt hk hget hc] at h
        simp at h
    · rw [checkIfTxWasDropped_first query buf txMeta n hcount hlt (by simpa using hk)] at h
      simp only [Except.ok.injEq, Prod.mk.injEq, true_and] at h
      rw [← h]
      exact Buffer.hasKey_set _ _ _

/-! ### Witnesses: the hypothesis-bearing claim theorems at concrete inputs -/

/-- Witness for `drop_debounce`: the concrete item, oracle (next-nonce 5, no
receipt), and empty buffer. -/
theorem drop_debounce_witness :
    ∃ buf1 buf2 buf3 : Buffer,
      checkPendingTx oracleNoReceipt (fun _ => []) [] sampleTx = .ok ([], buf1, sampleTx) ∧
      checkPendingTx oracleNoReceipt (fun _ => []) buf1 sampleTx = .ok ([], buf2, sampleTx) ∧
      checkPendingTx oracleNoReceipt (fun _ => []) buf2 sampleTx = .ok ([], buf3, sampleTx) ∧
      checkPendingTx oracleNoReceipt (fun _ => []) buf3 sampleTx
        = .ok ([Event.txDropped sampleTx.id], buf3.delete sampleTx.hash, sampleTx) ∧
      (buf3.delete sampleTx.hash).hasKey sampleTx.hash = false :=
  drop_debounce oracleNoReceipt (fun _ => []) [] sampleTx "0xabc" 5 rfl rfl rfl rfl rfl
    (by decide) rfl

/-- A concrete item in its backoff window (retry count 2, first retry block 10). -/
def backoffTx : TxMeta := { sampleTx with retryCount := some 2, firstRetryBlockNumber := some 10 }

/-- A concrete broadcast collaborator. -/
def pubW : String → Except Err String := fun _ => .ok "0xnewhash"

/-- A concrete approve collaborator. -/
def appW : Nat → Except Err Unit := fun _ => .ok ()

/-- Witness for `resubmitTx_backoff`: with retry count 2, block distance 3 is
skipped and block distance 4 is attempted. -/
theorem resubmitTx_backoff_witness :
    ((resubmitTx pubW appW backoffTx 13).attemptedApprove = false ∧
     (resubmitTx pubW appW backoffTx 13).attemptedPublish = false) ∧
    ((resubmitTx pubW appW backoffTx 14).attemptedApprove = true ∨
     (resubmitTx pubW appW backoffTx 14).attemptedPublish = true) :=
  ⟨(resubmitTx_backoff pubW appW backoffTx 13).1 (by decide),
   (resubmitTx_backoff pubW appW backoffTx 14).2 (by decide)⟩

/-- Witness for `blockUpdate_emitted_only_first_time` at block 13 then 20. -/
theorem blockUpdate_emitted_only_first_time_witness :
    ((resubmitTx pubW appW sampleTx 13).events.filter Event.isBlockUpdate)
        = [Event.txBlockUpdate sampleTx.id 13] ∧
    handleBlockUpdate sampleTx 13 = { sampleTx with firstRetryBlockNumber := some 13 } ∧
    ((resubmitTx pubW appW (handleBlockUpdate sampleTx 13) 20).events.filter
        Event.isBlockUpdate) = [] :=
  blockUpdate_emitted_only_first_time pubW pubW appW appW sampleTx 13 20 rfl

/-- Witness for `receipt_confirmed_exactly_once` with a mined receipt. -/
theorem receipt_confirmed_exactly_once_witness :
    checkPendingTx oracleWithReceipt (fun _ => []) [] sampleTx
      = .ok ([Event.txConfirmed sampleTx.id sampleReceipt (some 100)], [], sampleTx) :=
  receipt_confirmed_exactly_once oracleWithReceipt (fun _ => []) [] sampleTx "0xabc"
    sampleReceipt 3 { baseFeePerGas := some 100 } rfl rfl rfl rfl rfl rfl

/-- A completed item of the same sender with the same nonce, different identity. -/
def otherTx : TxMeta := { sampleTx with id := 9 }

/-- Witness for `nonce_collision_drops_without_query`: the completed set holds
a same-nonce item with a different id. -/
theorem nonce_collision_drops_without_query_witness :
    checkPendingTx oracleNoReceipt (fun _ => [otherTx]) [] sampleTx
      = .ok ([Event.txDropped sampleTx.id], [], sampleTx) :=
  nonce_collision_drops_without_query oracleNoReceipt (fun _ => [otherTx]) [] sampleTx otherTx
    "0xabc" rfl rfl (by simp) (by decide) rfl

/-- A concrete rejection with a non-benign message. -/
def sampleErr : Err := { message := "connection reset", name := none, valueMessage := none }

/-- An oracle whose every query rejects with `sampleErr`. -/
def oracleFailing : QueryOracle :=
  { getTransactionReceipt := fun _ => .error sampleErr
    getBlockByHash := fun _ => .error sampleErr
    getTransactionCount := fun _ => .error sampleErr }

/-- Witness for `query_failure_warns` at the always-rejecting oracle. -/
theorem query_failure_warns_witness :
    checkPendingTx oracleFailing (fun _ => []) [] sampleTx
      = .ok ([Event.txWarning sampleTx.id sampleErr], [],
             { sampleTx with warning := some (loadingWarning sampleErr) }) :=
  query_failure_warns oracleFailing (fun _ => []) [] sampleTx "0xabc" sampleErr rfl rfl rfl rfl

/-- A known-benign rejection, in mixed case to exercise the lowercasing. -/
def knownErr : Err := { message := "Nonce Too Low", name := none, valueMessage := none }

/-- A non-benign rejection. -/
def unknownErr : Err := { message := "boom", name := none, valueMessage := none }

/-- Witness for `resubmit_error_classification`: the known-benign error (in
mixed case) is swallowed; the unknown error warns. -/
theorem resubmit_error_classification_witness :
    handleResubmitError sampleTx knownErr = ([], sampleTx) ∧
    handleResubmitError sampleTx unknownErr
      = ([Event.txWarning sampleTx.id unknownErr],
         { sampleTx with warning := some (resubmitWarning (errorMessageOf unknownErr)) }) :=
  ⟨(resubmit_error_classification sampleTx knownErr).1 (by decide),
   (resubmit_error_classification sampleTx unknownErr).2.1 (by decide)⟩

/-- Witness for `dropped_buffer_lifecycle` at the concrete oracle and item. -/
theorem dropped_buffer_lifecycle_witness :
    (sampleTx.nonce ≥ 5 → checkIfTxWasDropped oracleNoReceipt [] sampleTx = .ok (false, [])) ∧
    (∀ buf' : Buffer, checkIfTxWasDropped oracleNoReceipt [] sampleTx = .ok (true, buf') →
      buf'.hasKey sampleTx.hash = false) ∧
    (∀ buf' : Buffer, checkIfTxWasDropped oracleNoReceipt [] sampleTx = .ok (false, buf') →
      sampleTx.nonce < 5 → buf'.hasKey sampleTx.hash = true) :=
  dropped_buffer_lifecycle oracleNoReceipt [] sampleTx 5 rfl

end PendingTx
